import Mathlib

/-!
Verification of the Spy_ko repository: a safe timer abstraction over the
kernel timer primitive (`rust/kernel/timer.rs`) together with a
demonstration consumer, a PS/2 keypress counter
(`drivers/input/ps2_counter.rs`).

The Rust code is shallowly embedded: 64-bit machine integers become `Nat`
with explicit reduction modulo `2 ^ 64` where the source wraps, pointers
become abstract `Nat` addresses, the atomics of the consumer become plain
record fields (their functional effect is what the claims describe), and
the host timer primitive, whose C implementation lives outside this
repository, is modelled from its documented contract in the specification.
-/

/-! ## Machine-integer model -/

/-- The modulus of 64-bit machine arithmetic. -/
def U64 : Nat := 2 ^ 64

/-- `u64::MAX`, the largest 64-bit value. -/
def u64MAX : Nat := 2 ^ 64 - 1

/-- `u64::overflowing_sub`: the wrapped difference together with the
underflow flag. Inputs are assumed below `U64`. -/
def overflowing_sub (a b : Nat) : Nat × Bool :=
  ((a + U64 - b) % U64, decide (a < b))

/-- `u64::overflowing_add` / `wrapping_add`: the wrapped sum (the consumer
discards the carry flag). -/
def wrapping_add (a b : Nat) : Nat := (a + b) % U64

/-! ## Consumer: `drivers/input/ps2_counter.rs` -/

/-- `irqreturn_IRQ_NONE`. -/
def IRQ_NONE : Nat := 0

/-- `irqreturn_IRQ_HANDLED`. -/
def IRQ_HANDLED : Nat := 1

/-- `DELAY = 10 * HZ` ticks between flushes; `HZ` is a host configuration
constant, kept as a parameter. -/
def DELAY (HZ : Nat) : Nat := 10 * HZ

/-- The shared `CounterData` instance: the event counter (`AtomicUsize`)
and the tick of the last report (`AtomicU64`). -/
structure CounterData where
  counter : Nat
  last_printed : Nat
deriving DecidableEq, Repr

/-- `CounterData::new`: both fields start at zero. -/
def CounterData.new : CounterData := ⟨0, 0⟩

/-- `CounterData::handle_key`: a relaxed `fetch_add(1)` on the shared
counter, then `IRQ_HANDLED`. Returns the new counter and the irq return
value. -/
def CounterData.handle_key (counter : Nat) : Nat × Nat :=
  ((counter + 1) % U64, IRQ_HANDLED)

/-- Outcome of one firing of `CounterData::trampoline`: the irq return
value, the counter afterwards, and whether the failure message was
logged. -/
structure TrampolineOut where
  ret : Nat
  counter : Nat
  logged : Bool
deriving DecidableEq, Repr

/-- `CounterData::trampoline`: compares the cookie against the address of
the registered instance and the line against 1; on mismatch logs and
returns `IRQ_NONE` without touching the counter, otherwise defers to
`handle_key`. Pointers are abstract addresses. -/
def CounterData.trampoline (instancePtr : Nat) (irq : Int) (cookie : Nat)
    (counter : Nat) : TrampolineOut :=
  if ¬ instancePtr = cookie ∨ ¬ irq = 1 then
    ⟨IRQ_NONE, counter, true⟩
  else
    let r := CounterData.handle_key counter
    ⟨r.2, r.1, false⟩

/-- The elapsed-ticks computation at the head of `Callback::invoke`:
`overflowing_sub` and, when it underflowed, `diff += u64::MAX`
(wrapping). -/
def elapsedTicks (now last : Nat) : Nat :=
  let p := overflowing_sub now last
  if p.2 then (p.1 + u64MAX) % U64 else p.1

/-- The true modular distance from `last` to `now` in the 64-bit tick
ring, i.e. `(now - last) mod 2 ^ 64`. -/
def modularDistance (now last : Nat) : Nat := (now + U64 - last) % U64

/-- Outcome of one firing of `Callback::invoke`: the `CounterData` state
afterwards, the absolute deadline passed to `timer.modify`, and the
reported count if a report was printed. -/
structure InvokeResult where
  state : CounterData
  deadline : Nat
  report : Option Nat
deriving DecidableEq, Repr

/-- `Callback::invoke` of the consumer (`TimerCallback` for the flush
timer): computes the elapsed ticks since `last_printed`; below `DELAY` it
only re-arms at `now + diff`; otherwise it swaps the counter to zero,
reports half of it, stores `now` into `last_printed` and re-arms at
`now + DELAY` (wrapping). -/
def Callback.invoke (HZ : Nat) (s : CounterData) (now : Nat) : InvokeResult :=
  let diff := elapsedTicks now s.last_printed
  if diff < DELAY HZ then
    ⟨s, wrapping_add now diff, none⟩
  else
    ⟨⟨0, now⟩, wrapping_add now (DELAY HZ), some (s.counter / 2)⟩

/-! ## Host timer primitive (modelled from the spec)

The C functions `mod_timer`, `del_timer_sync` and `init_timer_key` are
consumed bindings; their implementation is not part of this repository.
They are modelled from the contract in the specification: an
`Idle ⇄ Armed` state machine, `mod_timer` arming and reporting whether
the timer was already active, `del_timer_sync` blocking until quiescent
and leaving the timer deactivated. -/

/-- Modelled from the spec: the state of the host `timer_list` primitive,
either idle or armed with an absolute deadline tick. -/
inductive HostTimerState where
  | Idle
  | Armed (deadline : Nat)
deriving DecidableEq, Repr

/-- Modelled from the spec: `mod_timer(ptr, expires)` re-arms (or arms)
the host timer at the absolute tick `expires` and returns a nonzero code
exactly when the timer was already active beforehand. -/
def mod_timer (s : HostTimerState) (expires : Nat) : HostTimerState × Int :=
  match s with
  | .Armed _ => (.Armed expires, 1)
  | .Idle => (.Armed expires, 0)

/-- Modelled from the spec: whether the host would dispatch a firing of
this timer once the tick counter reaches `now`; only an armed timer whose
deadline has been reached fires. -/
def canFire (s : HostTimerState) (now : Nat) : Bool :=
  match s with
  | .Armed d => decide (d ≤ now)
  | .Idle => false

/-- Modelled from the spec: `del_timer_sync(ptr)` blocks until any
in-flight dispatch has completed and the timer is deactivated; afterwards
the timer is quiescent (idle, never to fire again). -/
def del_timer_sync (_s : HostTimerState) : HostTimerState := .Idle

/-! ## Timer abstraction: `rust/kernel/timer.rs` -/

/-- `TIMER_DEFERRABLE` flag bit (kernel binding, Linux v5.11). -/
def TIMER_DEFERRABLE : Nat := 0x00080000

/-- `TIMER_IRQSAFE` flag bit (kernel binding, Linux v5.11). -/
def TIMER_IRQSAFE : Nat := 0x00200000

/-- `TimerBuilder<C>` (the source also carries a name lifetime):
diagnostic name, callback value and flag bitset, accumulated before
registration. -/
structure TimerBuilder (C : Type) where
  name : String
  callback : C
  flags : Nat
deriving DecidableEq, Repr

/-- `TimerBuilder::new`: the provided name and callback, flags zero. -/
def TimerBuilder.new {C : Type} (name : String) (callback : C) :
    TimerBuilder C :=
  ⟨name, callback, 0⟩

/-- `TimerBuilder::deferrable`: or the `TIMER_DEFERRABLE` bit into the
flags. -/
def TimerBuilder.deferrable {C : Type} (b : TimerBuilder C) : TimerBuilder C :=
  { b with flags := b.flags ||| TIMER_DEFERRABLE }

/-- `TimerBuilder::irqsafe`: or the `TIMER_IRQSAFE` bit into the flags. -/
def TimerBuilder.irqsafe {C : Type} (b : TimerBuilder C) : TimerBuilder C :=
  { b with flags := b.flags ||| TIMER_IRQSAFE }

/-- `Timer<C>`: the long-lived, address-stable object. The embedded
`timer_list` is carried as its host state; the lock-class key is opaque
and omitted. -/
structure Timer (C : Type) where
  list : HostTimerState
  callback : C
  name : String
deriving DecidableEq, Repr

/-- The arguments this component hands to `init_timer_key` at
registration: the flag bitset and the diagnostic name. -/
structure HostRegistration where
  flags : Nat
  name : String
deriving DecidableEq, Repr

/-- `Timer::new_uninitialized`: builds the payload from the builder and
returns it with the flags to register. The host state is uninitialized
until `initialize`; it is represented as `Idle` here. -/
def Timer.new_uninitialized {C : Type} (args : TimerBuilder C) :
    Timer C × Nat :=
  (⟨.Idle, args.callback, args.name⟩, args.flags)

/-- `Timer::initialize`: the single registration step, calling
`init_timer_key` with the trampoline, the flags, the name and the key.
Returns the registered timer together with the record of the arguments
passed to the host. -/
def Timer.initialize {C : Type} (t : Timer C) (flags : Nat) :
    Timer C × HostRegistration :=
  ({ t with list := .Idle }, ⟨flags, t.name⟩)

/-- `TimerBuilder::boxed`: heap placement; `new_uninitialized` then
`initialize`. The other two placement strategies funnel into the same
registration step. -/
def TimerBuilder.boxed {C : Type} (b : TimerBuilder C) :
    Timer C × HostRegistration :=
  let p := Timer.new_uninitialized b
  Timer.initialize p.1 p.2

/-- `Timer::modify`: calls `mod_timer` on the embedded `timer_list` with
the absolute deadline and returns `res != 0`. -/
def Timer.modify {C : Type} (t : Timer C) (expires : Nat) : Timer C × Bool :=
  let r := mod_timer t.list expires
  ({ t with list := r.1 }, decide (¬ r.2 = 0))

/-- The ordered steps of `impl Drop for Timer`: `del_timer_sync` first,
then `drop_in_place` of the `timer_list`, then `drop_in_place` of the
lock-class key (the diagnostic token); the callback storage is released
by the automatic field drop that follows the `drop` body. -/
inductive DropStep where
  | cancelSync
  | dropList
  | dropKey
  | dropCallback
deriving DecidableEq, Repr

/-- The teardown sequence executed when a `Timer` is destroyed, in
program order. -/
def Timer.dropTrace : List DropStep :=
  [.cancelSync, .dropList, .dropKey, .dropCallback]

/-! ## Module constructor: `Ps2Counter::init` -/

/-- `Error::from_kernel_errno`: the typed kernel error wrapping a negative
errno. -/
def Error.from_kernel_errno (errno : Int) : Int := errno

/-- The `Ps2Counter` module instance: its single field owns the flush
timer, so a constructed instance always carries a registered timer. -/
structure Ps2Counter where
  timer : Timer Unit × HostRegistration
deriving DecidableEq, Repr

/-- `Ps2Counter::init`: first registers the interrupt handler; a negative
return from `request_threaded_irq` is converted by `from_kernel_errno`
and returned, aborting construction before any timer is created; on a
non-negative return the flush timer is built (`timer!(Callback).boxed()`)
and the instance is returned. The callback value is a unit struct. -/
def Ps2Counter.init (irq_res : Int) : Except Int Ps2Counter :=
  if irq_res < 0 then
    .error (Error.from_kernel_errno irq_res)
  else
    .ok ⟨(TimerBuilder.new "ps2_counter" ()).boxed⟩

/-! ## Theorems -/

/-- Shared helper: the exact outcome of `Callback::invoke` when the
computed elapsed ticks have reached `DELAY`. -/
theorem invoke_flush_eq (HZ : Nat) (s : CounterData) (now : Nat)
    (h : DELAY HZ ≤ elapsedTicks now s.last_printed) :
    Callback.invoke HZ s now =
      ⟨⟨0, now⟩, (now + DELAY HZ) % U64, some (s.counter / 2)⟩ := by
  simp only [Callback.invoke, wrapping_add]
  rw [if_neg (Nat.not_lt.mpr h)]

/-- Claim C1: a firing with elapsed ticks `DELAY - 1` indeed leaves the
counter and `last_printed` untouched and prints no report, but the code
re-arms at `now + diff` — at `HZ = 100`, `last_printed = 0`, `now = 999`
(so `diff = DELAY - 1 = 999`) the new deadline is `1998`, not the
`now + 1 = 1000` the claim requires. -/
theorem invoke_below_delay_rearm_at_now_plus_elapsed :
    elapsedTicks 999 0 = DELAY 100 - 1 ∧
    Callback.invoke 100 ⟨7, 0⟩ 999 = ⟨⟨7, 0⟩, 1998, none⟩ ∧
    ¬ (Callback.invoke 100 ⟨7, 0⟩ 999).deadline = 999 + 1 := by
  decide

/-- Claim C2: on wraparound the code computes `(u64::MAX - last) + now`
— at `now = 5`, `last = u64::MAX` it yields `(u64MAX - u64MAX) + 5 = 5` —
but the true modular distance there is `6`: the wraparound branch is one
tick short of the modular distance the claim requires. -/
theorem elapsedTicks_wraparound_off_by_one :
    elapsedTicks 5 u64MAX = (u64MAX - u64MAX) + 5 ∧
    modularDistance 5 u64MAX = 6 ∧
    ¬ elapsedTicks 5 u64MAX = modularDistance 5 u64MAX := by
  decide

/-- Claim C3: `Timer::modify` returns `false` exactly when the timer is
currently idle and `true` exactly when it is currently armed, whatever
the new deadline is. -/
theorem modify_returns_whether_active {C : Type} (t : Timer C) (e : Nat) :
    ((t.modify e).2 = false ↔ t.list = .Idle) ∧
    ((t.modify e).2 = true ↔ ∃ d, t.list = .Armed d) := by
  cases h : t.list <;> simp [Timer.modify, mod_timer, h]

/-- Claim C4: once the elapsed ticks reach `DELAY`, the callback swaps
the counter to zero, reports the swapped value halved, stores the firing
tick into `last_printed`, and re-arms at the wrapped `now + DELAY`. -/
theorem invoke_flush_reports_half_and_resets (HZ : Nat) (s : CounterData)
    (now : Nat) (h : DELAY HZ ≤ elapsedTicks now s.last_printed) :
    Callback.invoke HZ s now =
      ⟨⟨0, now⟩, (now + DELAY HZ) % U64, some (s.counter / 2)⟩ :=
  invoke_flush_eq HZ s now h

/-- Claim C4 witness: ten counted events and a firing at tick `1000` with
`HZ = 100`: the report is `5`, the counter resets to `0`, `last_printed`
becomes the firing tick and the timer is re-armed at `2000`. -/
theorem invoke_flush_reports_half_and_resets_witness :
    Callback.invoke 100 ⟨10, 0⟩ 1000 = ⟨⟨0, 1000⟩, 2000, some 5⟩ :=
  (invoke_flush_reports_half_and_resets 100 ⟨10, 0⟩ 1000 (by decide)).trans
    (by decide)

/-- Claim C5: in the teardown sequence the synchronous cancellation step
precedes the release of the diagnostic token and of the callback
storage, and once `del_timer_sync` has returned the host never fires
this timer again, at any later tick. -/
theorem teardown_cancel_before_release_and_quiescent :
    Timer.dropTrace.indexOf .cancelSync < Timer.dropTrace.indexOf .dropKey ∧
    Timer.dropTrace.indexOf .cancelSync <
      Timer.dropTrace.indexOf .dropCallback ∧
    ∀ s now, canFire (del_timer_sync s) now = false := by
  refine ⟨by decide, by decide, fun s now => rfl⟩

/-- Claim C6: the trampoline returns `IRQ_NONE` after logging, leaving
the counter untouched, whenever the cookie is not the registered
instance or the line is not `1`; otherwise it increments the counter by
one (wrapping) and returns `IRQ_HANDLED` without logging. -/
theorem trampoline_validates_cookie_and_line (instancePtr : Nat) (irq : Int)
    (cookie : Nat) (counter : Nat) :
    (¬ instancePtr = cookie ∨ ¬ irq = 1 →
      CounterData.trampoline instancePtr irq cookie counter =
        ⟨IRQ_NONE, counter, true⟩) ∧
    (instancePtr = cookie → irq = 1 →
      CounterData.trampoline instancePtr irq cookie counter =
        ⟨IRQ_HANDLED, (counter + 1) % U64, false⟩) := by
  constructor
  · intro h
    simp only [CounterData.trampoline]
    rw [if_pos h]
  · intro h1 h2
    simp only [CounterData.trampoline]
    rw [if_neg (by push_neg; exact ⟨h1, h2⟩)]
    rfl

/-- Claim C6 witness: with the instance at address `5`, a firing on the
wrong line `2` is ignored with the counter left at `0`, while a valid
firing on line `1` with the matching cookie increments the counter. -/
theorem trampoline_validates_cookie_and_line_witness :
    CounterData.trampoline 5 2 5 0 = ⟨IRQ_NONE, 0, true⟩ ∧
    CounterData.trampoline 5 1 5 0 = ⟨IRQ_HANDLED, 1, false⟩ :=
  ⟨(trampoline_validates_cookie_and_line 5 2 5 0).1 (Or.inr (by decide)),
   ((trampoline_validates_cookie_and_line 5 1 5 0).2 rfl rfl).trans
     (by decide)⟩

/-- Claim C7: a negative return from the interrupt registration is
converted by `from_kernel_errno` and propagated, aborting construction
with no module instance (hence no timer) created; a non-negative return
lets construction proceed and succeed. -/
theorem init_propagates_irq_error (res : Int) :
    (res < 0 → Ps2Counter.init res = .error (Error.from_kernel_errno res)) ∧
    (0 ≤ res → ∃ m : Ps2Counter, Ps2Counter.init res = .ok m) := by
  constructor
  · intro h
    simp [Ps2Counter.init, h]
  · intro h
    exact ⟨⟨(TimerBuilder.new "ps2_counter" ()).boxed⟩,
      by unfold Ps2Counter.init; rw [if_neg (Int.not_lt.mpr h)]⟩

/-- Claim C7 witness: registration failing with `-22` aborts construction
with the typed error `-22`; registration returning `0` constructs the
module. -/
theorem init_propagates_irq_error_witness :
    Ps2Counter.init (-22) = .error (Error.from_kernel_errno (-22)) ∧
    ∃ m : Ps2Counter, Ps2Counter.init 0 = .ok m :=
  ⟨(init_propagates_irq_error (-22)).1 (by decide),
   (init_propagates_irq_error 0).2 (by decide)⟩

/-- Claim C8: `deferrable` sets exactly bit `19` (`TIMER_DEFERRABLE`)
and `irqsafe` exactly bit `21` (`TIMER_IRQSAFE`) of the flags, leaving
every other flag bit, the name and the callback unchanged. -/
theorem flag_setters_set_only_their_bit {C : Type} (b : TimerBuilder C) :
    (b.deferrable.name = b.name ∧ b.deferrable.callback = b.callback ∧
      b.deferrable.flags.testBit 19 = true ∧
      (∀ i, ¬ i = 19 → b.deferrable.flags.testBit i = b.flags.testBit i)) ∧
    (b.irqsafe.name = b.name ∧ b.irqsafe.callback = b.callback ∧
      b.irqsafe.flags.testBit 21 = true ∧
      (∀ i, ¬ i = 21 → b.irqsafe.flags.testBit i = b.flags.testBit i)) := by
  have hd : TIMER_DEFERRABLE = 2 ^ 19 := by decide
  have hi : TIMER_IRQSAFE = 2 ^ 21 := by decide
  refine ⟨⟨rfl, rfl, ?_, ?_⟩, ⟨rfl, rfl, ?_, ?_⟩⟩
  · show (b.flags ||| TIMER_DEFERRABLE).testBit 19 = true
    rw [Nat.testBit_lor,
      show TIMER_DEFERRABLE.testBit 19 = true from by decide, Bool.or_true]
  · intro i hne
    simp [TimerBuilder.deferrable, hd, Nat.testBit_lor,
      Nat.testBit_two_pow_of_ne (fun h => hne h.symm)]
  · show (b.flags ||| TIMER_IRQSAFE).testBit 21 = true
    rw [Nat.testBit_lor,
      show TIMER_IRQSAFE.testBit 21 = true from by decide, Bool.or_true]
  · intro i hne
    simp [TimerBuilder.irqsafe, hi, Nat.testBit_lor,
      Nat.testBit_two_pow_of_ne (fun h => hne h.symm)]

/-- Claim C8 witness: on a fresh zero-flag builder, neither setter
changes bit `0`, and each leaves the name intact. -/
theorem flag_setters_set_only_their_bit_witness :
    (TimerBuilder.new "t" ()).deferrable.flags.testBit 0 =
      (TimerBuilder.new "t" ()).flags.testBit 0 ∧
    (TimerBuilder.new "t" ()).irqsafe.flags.testBit 0 =
      (TimerBuilder.new "t" ()).flags.testBit 0 :=
  ⟨(flag_setters_set_only_their_bit (TimerBuilder.new "t" ())).1.2.2.2 0
     (by decide),
   (flag_setters_set_only_their_bit (TimerBuilder.new "t" ())).2.2.2.2 0
     (by decide)⟩

/-- Claim C9: a builder made by `new` on which neither flag setter was
called has flags `0`, so heap placement registers the timer with the
host with a zero flags argument. -/
theorem new_builder_registers_zero_flags {C : Type} (name : String)
    (cb : C) :
    (TimerBuilder.new name cb).flags = 0 ∧
    ((TimerBuilder.new name cb).boxed).2.flags = 0 :=
  ⟨rfl, rfl⟩

/-- Claim C10: when the swapped counter value is odd, `counter / 2`
floors: `2 * k + 1` counted events report `k`, and the counter still
resets to zero, so the odd event is discarded rather than carried
over. -/
theorem invoke_flush_odd_counter_floors (HZ k : Nat) (s : CounterData)
    (now : Nat) (hc : s.counter = 2 * k + 1)
    (h : DELAY HZ ≤ elapsedTicks now s.last_printed) :
    (Callback.invoke HZ s now).report = some k ∧
    (Callback.invoke HZ s now).state.counter = 0 := by
  rw [invoke_flush_eq HZ s now h, hc]
  exact ⟨by simp [Nat.add_mul_div_left, Nat.mul_add_div], rfl⟩

/-- Claim C10 witness: eleven counted events and a flush at tick `1000`
with `HZ = 100`: the report is `5` and the counter resets to `0`. -/
theorem invoke_flush_odd_counter_floors_witness :
    (Callback.invoke 100 ⟨11, 0⟩ 1000).report = some 5 ∧
    (Callback.invoke 100 ⟨11, 0⟩ 1000).state.counter = 0 :=
  invoke_flush_odd_counter_floors 100 5 ⟨11, 0⟩ 1000 (by decide) (by decide)
